import Mathlib

/-!
# Verification of the infographics-API generation/extraction pipeline

Shallow embedding of the orchestration core of the repository:

* `src/svg_extractor.py` — the per-slot extraction worker (readiness gates,
  structural validation, serialization, artifact write);
* `src/api_headless_infographic.py` — batch orchestrator
  (`generate_infographics`), generation tasks (`generate_single_variant_api`),
  subprocess-isolated extraction (`extract_svg_subprocess`), sequential
  staggered extraction (`extract_svgs_sequential`);
* `src/main_d3_parallel_headless.py` — the SVG string normalization
  (XML declaration / namespace-attribute insertion, lines 85–94, identical to
  `api_headless_infographic.py` lines 114–119).

Python strings are embedded as `List Char` where character-level reasoning is
needed, and as `String` elsewhere.  External collaborators (the Gemini
generation service, the Playwright page, the extraction subprocess, the
filesystem) are modelled as explicit oracle parameters describing their
observable behaviour; the control flow acting on those observations is
translated from the source.
-/

/-! ## Python string primitives on `List Char` -/

/-- Occurrences of `pat` as a substring (at any position, overlap counted);
`0 < occCount pat s` embeds Python's `pat in s`. -/
def occCount (pat : List Char) : List Char → Nat
  | [] => 0
  | c :: rest => occCount pat rest + (if pat.isPrefixOf (c :: rest) then 1 else 0)

/-- Python `pat in s`. -/
def containsSub (pat s : List Char) : Bool := occCount pat s != 0

/-- Fuel-driven worker for `replaceAll`; fuel `s.length` is enough because
every step consumes at least one character. -/
def replaceAllAux (pat repl : List Char) : Nat → List Char → List Char
  | 0, s => s
  | _ + 1, [] => []
  | fuel + 1, c :: rest =>
    if pat.isPrefixOf (c :: rest) then
      repl ++ replaceAllAux pat repl fuel (rest.drop (pat.length - 1))
    else
      c :: replaceAllAux pat repl fuel rest

/-- Python `s.replace(pat, repl)`: every non-overlapping occurrence,
left to right. -/
def replaceAll (pat repl s : List Char) : List Char :=
  replaceAllAux pat repl s.length s

/-- Python `s.strip()`: whitespace removed from both ends. -/
def pyStrip (s : List Char) : List Char :=
  ((s.dropWhile Char.isWhitespace).reverse.dropWhile Char.isWhitespace).reverse

/-- Fuel-driven worker for `pySplitOn`: `acc` is the chunk being built
(reversed).  Fuel `s.length` is enough because every step consumes at least
one character. -/
def pySplitOnAux (sep : List Char) : Nat → List Char → List Char → List (List Char)
  | _, acc, [] => [acc.reverse]
  | 0, acc, s => [acc.reverse ++ s]
  | fuel + 1, acc, c :: rest =>
    if sep.isPrefixOf (c :: rest) then
      acc.reverse :: pySplitOnAux sep fuel [] ((c :: rest).drop sep.length)
    else
      pySplitOnAux sep fuel (c :: acc) rest

/-- Python `s.split(sep)` for a non-empty separator: chunks between the
non-overlapping occurrences of `sep`, left to right. -/
def pySplitOn (sep s : List Char) : List (List Char) :=
  pySplitOnAux sep s.length [] s

/-! ## SVG artifact normalization

From `main_d3_parallel_headless.py` lines 85–94 (the same six lines appear at
`api_headless_infographic.py` 114–119):

```python
if not svg_content.startswith('<?xml'):
    svg_content = '<?xml version="1.0" encoding="UTF-8"?>\n' + svg_content
if 'xmlns="http://www.w3.org/2000/svg"' not in svg_content:
    svg_content = svg_content.replace('<svg', '<svg xmlns="http://www.w3.org/2000/svg"')
```
-/

def xmlHead : List Char := "<?xml".data

def xmlDecl : List Char := "<?xml version=\"1.0\" encoding=\"UTF-8\"?>\n".data

def svgXmlnsAttr : List Char := "xmlns=\"http://www.w3.org/2000/svg\"".data

def svgOpenTag : List Char := "<svg".data

def svgOpenTagWithNs : List Char := "<svg xmlns=\"http://www.w3.org/2000/svg\"".data

/-- The declaration/namespace normalization applied to the serialized SVG
markup before it is written to the artifact file. -/
def normalize_svg_content (svg_content : List Char) : List Char :=
  let s1 := if xmlHead.isPrefixOf svg_content then svg_content
            else xmlDecl ++ svg_content
  if containsSub svgXmlnsAttr s1 then s1
  else replaceAll svgOpenTag svgOpenTagWithNs s1

/-! ## Extraction worker (`svg_extractor.py`, `extract_svg`)

The Playwright page is an external collaborator; `PageEnv` records the
observable outcome of each interaction the worker performs, in the order the
source performs them.  The worker itself (branching, classification, write)
is translated from the source.  `ExtractEvent` traces which collaborator
interactions actually happen, so "gate X is never reached" and "the runtime
is checked exactly twice" are statable. -/

structure SvgInfo where
  children : Nat
  textElements : Nat
  deriving DecidableEq, Repr

structure PageEnv where
  /-- browser launch succeeds (outer `try`) -/
  launchOk : Bool
  /-- whether `page.goto(..., wait_until='networkidle', timeout=30000)` succeeds -/
  gotoOk : Bool
  /-- first `typeof d3 !== 'undefined'` evaluation -/
  d3First : Bool
  /-- second `typeof d3 !== 'undefined'` evaluation -/
  d3Second : Bool
  /-- whether `page.wait_for_selector('svg', timeout=15000)` succeeds -/
  selectorOk : Bool
  /-- the structural query result (`none` embeds JS `null`) -/
  svgInfo : Option SvgInfo
  /-- serialized markup of the cloned SVG (`none` embeds JS `null`) -/
  svgContent : Option String
  /-- message of the exception raised by a failing collaborator call -/
  excMsg : String
  deriving DecidableEq, Repr

inductive ExtractEvent where
  | navigated
  | waited (ms : Nat)
  | d3Checked
  | waitedForSelector
  | svgInfoQueried
  | svgSerialized
  | fileWritten
  deriving DecidableEq, Repr

/-- Embedding of `svg_extractor.extract_svg`: returns the `(success, message)` pair of the
source together with the trace of collaborator interactions. -/
def extract_svg (variantName : String) (env : PageEnv) :
    (Bool × String) × List ExtractEvent :=
  if env.launchOk = false then
    ((false, "Browser launch failed for " ++ variantName ++ ": " ++ env.excMsg), [])
  else if env.gotoOk = false then
    ((false, "Extraction failed for " ++ variantName ++ ": " ++ env.excMsg),
      [.navigated])
  else
    let ev1 : List ExtractEvent := [.navigated, .waited 3000, .d3Checked]
    let d3ok := if env.d3First then true else env.d3Second
    let ev2 := if env.d3First then ev1 else ev1 ++ [.waited 5000, .d3Checked]
    if d3ok = false then
      ((false, "D3.js failed to load"), ev2)
    else if env.selectorOk = false then
      ((false, "Extraction failed for " ++ variantName ++ ": " ++ env.excMsg),
        ev2 ++ [.waitedForSelector])
    else
      let ev3 := ev2 ++ [.waitedForSelector, .waited 2000, .svgInfoQueried]
      match env.svgInfo with
      | none => ((false, "Invalid SVG content"), ev3)
      | some info =>
        if info.children < 5 then
          ((false, "Invalid SVG content"), ev3)
        else
          let ev4 := ev3 ++ [.svgSerialized]
          match env.svgContent with
          | none => ((false, "Failed to extract SVG"), ev4)
          | some content =>
            if content = "" then ((false, "Failed to extract SVG"), ev4)
            else
              ((true, "Success: " ++ toString content.utf8ByteSize ++ " bytes"),
                ev4 ++ [.fileWritten])

/-! ## Subprocess-isolated extraction (`api_headless_infographic.py`,
`extract_svg_subprocess`)

`subprocess.run([...], capture_output=True, text=True, timeout=120)` either
completes (return code, stdout lines, stderr), raises
`subprocess.TimeoutExpired` when the child runs past the limit (the child is
then killed and waited for), or raises some other exception.  `ProcBehavior`
describes what the launched child would do; `subprocessRun` is the semantics
of the call under a timeout. -/

inductive ProcBehavior where
  /-- child terminates after `duration` seconds with this return code and
  captured output -/
  | runs (duration : Nat) (returncode : Int) (stdout : List String) (stderr : String)
  /-- launching/communicating with the child raises an exception -/
  | launchError (msg : String)
  deriving DecidableEq, Repr

inductive SubprocessOutcome where
  | completed (returncode : Int) (stdout : List String) (stderr : String)
  | timedOut
  | raised (msg : String)
  deriving DecidableEq, Repr

def subprocessRun (timeoutSec : Nat) (b : ProcBehavior) : SubprocessOutcome :=
  match b with
  | .runs d rc out err => if timeoutSec < d then .timedOut else .completed rc out err
  | .launchError m => .raised m

/-- The hard per-attempt timeout passed to `subprocess.run` (seconds). -/
def extractionTimeoutSec : Nat := 120

/-- Python `"pat" in line` on `String`s. -/
def strContains (pat line : String) : Bool := containsSub pat.data line.data

/-- Embedding of `extract_svg_subprocess`: classify the subprocess outcome into the
`(success, message)` pair the scheduler consumes. -/
def extract_svg_subprocess (b : ProcBehavior) : Bool × String :=
  match subprocessRun extractionTimeoutSec b with
  | .completed rc out _ =>
    if rc = 0 then
      match out.find? (fun l => strContains "SUCCESS:" l && strContains "bytes" l) with
      | some line =>
        match (pySplitOn "SUCCESS: ".data line.data).get? 1 with
        | some tail => (true, String.mk tail)
        | none => (false, "Subprocess error: list index out of range")
      | none => (true, "Success")
    else
      (false, "Subprocess failed: " ++ (match b with | .runs _ _ _ e => e | _ => ""))
  | .timedOut => (false, "Extraction timeout (120s)")
  | .raised m => (false, "Subprocess error: " ++ m)

/-! ## Sequential staggered extraction (`extract_svgs_sequential`) -/

/-- A generation result dict, as produced by `generate_single_variant_api`
(`variant_id` is the 1-based id of the source). -/
structure GenDoc where
  variant_id : Nat
  html : String
  directory : String
  deriving DecidableEq, Repr

/-- What the external world does for one slot's extraction: the behaviour of
the launched subprocess and, on success, the content of the artifact file it
wrote (read back by the scheduler; `stat` size = UTF-8 byte count). -/
structure SlotExtraction where
  subprocess : ProcBehavior
  fileContent : String
  deriving DecidableEq, Repr

/-- One entry of the per-slot result list.  The base64 transcoding of the
artifact bytes is byte-level I/O outside the embedding; the field stores the
artifact content it encodes. -/
structure SvgVariantResult where
  variant_id : Nat
  success : Bool
  svg_file : String
  svg_content_base64 : Option String
  file_size : Nat
  message : String
  deriving DecidableEq, Repr

/-- Embedding of `extract_svgs_sequential`: one pass over the generation results, one
subprocess extraction each, failure entries kept (the staggered sleeps are
pure timing, modelled by `extractionStartTimes` below). -/
def extract_svgs_sequential (env : Nat → SlotExtraction) :
    List (Option GenDoc) → List SvgVariantResult
  | [] => []
  | none :: rest => extract_svgs_sequential env rest
  | some r :: rest =>
    let svgFile := r.directory ++ "/infographic.svg"
    let res := extract_svg_subprocess (env r.variant_id).subprocess
    let entry :=
      if res.1 then
        { variant_id := r.variant_id, success := true, svg_file := svgFile,
          svg_content_base64 := some (env r.variant_id).fileContent,
          file_size := (env r.variant_id).fileContent.utf8ByteSize,
          message := res.2 }
      else
        { variant_id := r.variant_id, success := false, svg_file := svgFile,
          svg_content_base64 := none, file_size := 0, message := res.2 }
    entry :: extract_svgs_sequential env rest

/-! ### Timing of the sequential extraction loop

`extract_svgs_sequential` sleeps `i * 3` seconds before extracting the `i`-th
remaining document and then runs the extraction to completion before moving
on.  Given the wall-clock duration of each extraction, the start times are: -/

/-- Constant from `delay_seconds = i * 3` in the source. -/
def staggerSec : Nat := 3

def startTimesAux (clock i : Nat) : List Nat → List Nat
  | [] => []
  | d :: ds =>
    let start := clock + staggerSec * i
    start :: startTimesAux (start + d) (i + 1) ds

/-- Extraction start times (seconds from entering the loop) when the
successive extractions take `durations`. -/
def extractionStartTimes (durations : List Nat) : List Nat :=
  startTimesAux 0 0 durations

/-! ## Generation task (`generate_single_variant_api`)

The two Gemini calls are external collaborators; each is an oracle from the
data the source puts into the prompt to `Except String String`, where
`.error msg` embeds a raised exception (caught by the task's `try`) and
`.ok ""` embeds an empty/falsy response. -/

/-- Oracle for `get_d3_code_single_frame`: topic and slot index determine the
elements prompt. -/
abbrev ElementsOracle := String → Nat → Except String String

/-- Oracle for `get_d3_code_headless_variant`: topic, slot index and the elements
string determine the code prompt. -/
abbrev CodeOracle := String → Nat → String → Except String String

/-- Embedding of `generate_single_variant_api`: produce the HTML document for one slot, or
`none` on failure (exception or empty code response).  An empty elements
response is replaced by the placeholder `"basic elements"`. -/
def generate_single_variant_api (topic : String) (variant_id : Nat)
    (base_output_dir : String) (elemsOracle : ElementsOracle)
    (codeOracle : CodeOracle) : Option GenDoc :=
  let variant_dir := base_output_dir ++ "/variant_" ++ toString (variant_id + 1)
  match elemsOracle topic variant_id with
  | .error _ => none
  | .ok elements_response =>
    let elements_response :=
      if elements_response = "" then "basic elements" else elements_response
    match codeOracle topic variant_id elements_response with
    | .error _ => none
    | .ok d3_code =>
      if d3_code = "" then none
      else some { variant_id := variant_id + 1,
                  html := variant_dir ++ "/infographic.html",
                  directory := variant_dir }

/-! ## Batch orchestrator (`generate_infographics`)

The FastAPI endpoint.  `raise HTTPException(...)` is embedded as
`Except.error`; returning an `InfographicResponse` as `Except.ok`.  The
thread-pool fan-out submits slots `0, 1, 2` and collects results in
completion order; `completionOrder` (a permutation of `[0, 1, 2]` supplied by
the environment) abstracts `as_completed`.  The batch directory name mixes
`time.time()` and an MD5 prefix, both environment-supplied, so the name is an
oracle parameter.  `OrchEvent` traces the orchestrator's side effects so
"never invoked" properties are statable.  The wall-clock `generation_time`
field is not modelled. -/

structure HttpErr where
  status_code : Nat
  detail : String
  deriving DecidableEq, Repr

structure InfographicResponse where
  success : Bool
  message : String
  variants : List SvgVariantResult
  output_directory : String
  deriving DecidableEq, Repr

instance {ε α : Type} [DecidableEq ε] [DecidableEq α] : DecidableEq (Except ε α) := fun a b =>
  match a, b with
  | .ok x, .ok y =>
    if h : x = y then .isTrue (congrArg Except.ok h)
    else .isFalse (fun hh => h (Except.ok.inj hh))
  | .error x, .error y =>
    if h : x = y then .isTrue (congrArg Except.error h)
    else .isFalse (fun hh => h (Except.error.inj hh))
  | .ok _, .error _ => .isFalse (fun hh => Except.noConfusion hh)
  | .error _, .ok _ => .isFalse (fun hh => Except.noConfusion hh)

inductive OrchEvent where
  /-- the `output_dir.mkdir(parents=True, exist_ok=True)` call -/
  | batchDirCreated
  /-- the `executor.submit(generate_single_variant_api, topic, i, output_dir)` call -/
  | genScheduled (slot : Nat)
  /-- extraction subprocess launched for this variant id -/
  | extractionLaunched (variant_id : Nat)
  deriving DecidableEq, Repr

/-- Embedding of `POST /generate-infographics`.  Returns the HTTP-level outcome and the
trace of orchestrator side effects. -/
def generate_infographics (prompt : String) (batchName : String)
    (completionOrder : List Nat) (elemsOracle : ElementsOracle)
    (codeOracle : CodeOracle) (extractEnv : Nat → SlotExtraction) :
    Except HttpErr InfographicResponse × List OrchEvent :=
  let topic := String.mk (pyStrip prompt.data)
  if topic = "" then
    (.error { status_code := 400, detail := "Prompt cannot be empty" }, [])
  else
    let output_dir := "generated/" ++ batchName
    let events := OrchEvent.batchDirCreated :: (List.range 3).map .genScheduled
    let html_results := completionOrder.filterMap
      (fun i => generate_single_variant_api topic i output_dir elemsOracle codeOracle)
    if html_results = [] then
      (.error { status_code := 500, detail := "Failed to generate any HTML variants" },
        events)
    else
      let events := events ++ html_results.map (fun r => .extractionLaunched r.variant_id)
      let svg_results := extract_svgs_sequential extractEnv (html_results.map some)
      let successful_svgs := svg_results.filter (fun r => r.success)
      if successful_svgs = [] then
        (.error { status_code := 500, detail := "Failed to extract any SVGs" }, events)
      else
        (.ok { success := true,
               message := "Successfully generated " ++ toString successful_svgs.length
                 ++ "/3 infographic variants",
               variants := svg_results,
               output_directory := output_dir }, events)

/-! ## Helper lemmas -/

/-- Prepending the XML declaration creates no new occurrence of the namespace
attribute and hides none: every prefix test inside the declaration fails on a
concrete character, so the two counts are definitionally equal. -/
theorem occCount_xmlns_xmlDecl_append (s : List Char) :
    occCount svgXmlnsAttr (xmlDecl ++ s) = occCount svgXmlnsAttr s := rfl

/-- The `<svg` replacement walks through the prepended XML declaration
untouched: the declaration contains no `<svg` occurrence. -/
theorem replaceAll_svgTag_xmlDecl_append (s : List Char) :
    replaceAll svgOpenTag svgOpenTagWithNs (xmlDecl ++ s)
      = xmlDecl ++ replaceAll svgOpenTag svgOpenTagWithNs s := rfl

theorem isPrefixOf_append_self (a b : List Char) : a.isPrefixOf (a ++ b) = true := by
  induction a with
  | nil => simp [List.isPrefixOf]
  | cons c t ih => simp [List.isPrefixOf, ih]

/-- Characterization of the normalizer on markup that does not already start
with an XML declaration (the shape every serialized `outerHTML` has). -/
theorem normalize_svg_content_eq (s : List Char) (h : xmlHead.isPrefixOf s = false) :
    normalize_svg_content s =
      if containsSub svgXmlnsAttr s then xmlDecl ++ s
      else xmlDecl ++ replaceAll svgOpenTag svgOpenTagWithNs s := by
  have hc : containsSub svgXmlnsAttr (xmlDecl ++ s) = containsSub svgXmlnsAttr s := by
    simp [containsSub, occCount_xmlns_xmlDecl_append]
  simp only [normalize_svg_content, h, Bool.false_eq_true, if_false, hc]
  by_cases hin : containsSub svgXmlnsAttr s
  · simp [hin]
  · simp [hin, replaceAll_svgTag_xmlDecl_append]

/-! ## C3 — artifact normalization: declaration and namespace attribute -/

set_option maxRecDepth 4000 in
/-- Claim C3, counterexample.  The claim states the artifact contains the SVG
namespace attribute exactly once "regardless of whether the serialized source
markup already contained zero, one, or a duplicate/malformed occurrence".
For serialized markup already containing a duplicate occurrence of the exact
attribute (a root `<svg>` and a nested `<svg>` both carrying it), the
membership test skips insertion and both occurrences are written out: the
artifact contains the attribute twice, not once. -/
theorem C3_counterexample :
    occCount svgXmlnsAttr (normalize_svg_content
        ("<svg xmlns=\"http://www.w3.org/2000/svg\"><svg xmlns=\"http://www.w3.org/2000/svg\"></svg></svg>").data)
      = 2 ∧ (2 : Nat) ≠ 1 := by
  constructor
  · decide
  · decide

/-- Claim C3, amended.  For every successful extraction whose serialized source
markup does not already begin with an XML declaration: the written artifact
begins with the standalone XML declaration; if the source contained the exact
namespace-attribute string exactly once, the artifact contains it exactly
once (insertion is skipped, hence idempotent for the exact form); and if the
source did not contain the exact attribute string at all, it is inserted at
every `<svg` occurrence (so duplicate source occurrences, or multiple `<svg`
tags, are the cases in which the exactly-once guarantee fails). -/
theorem C3_amended (s : List Char) (h : xmlHead.isPrefixOf s = false) :
    xmlDecl.isPrefixOf (normalize_svg_content s) = true
    ∧ (occCount svgXmlnsAttr s = 1 →
        occCount svgXmlnsAttr (normalize_svg_content s) = 1)
    ∧ (occCount svgXmlnsAttr s = 0 →
        normalize_svg_content s
          = xmlDecl ++ replaceAll svgOpenTag svgOpenTagWithNs s) := by
  rw [normalize_svg_content_eq s h]
  refine ⟨?_, ?_, ?_⟩
  · by_cases hin : containsSub svgXmlnsAttr s
    · simp [hin, isPrefixOf_append_self]
    · simp [hin, isPrefixOf_append_self]
  · intro h1
    have hin : containsSub svgXmlnsAttr s = true := by
      simp [containsSub, h1]
    simp [hin, occCount_xmlns_xmlDecl_append, h1]
  · intro h0
    have hin : containsSub svgXmlnsAttr s = false := by
      simp [containsSub, h0]
    simp [hin]

set_option maxRecDepth 4000 in
/-- Witness for `C3_amended` at concrete markup carrying the attribute
exactly once. -/
theorem C3_amended_witness :
    xmlHead.isPrefixOf "<svg xmlns=\"http://www.w3.org/2000/svg\"></svg>".data = false
    ∧ (xmlDecl.isPrefixOf (normalize_svg_content
          "<svg xmlns=\"http://www.w3.org/2000/svg\"></svg>".data) = true
      ∧ (occCount svgXmlnsAttr "<svg xmlns=\"http://www.w3.org/2000/svg\"></svg>".data = 1 →
          occCount svgXmlnsAttr (normalize_svg_content
            "<svg xmlns=\"http://www.w3.org/2000/svg\"></svg>".data) = 1)
      ∧ (occCount svgXmlnsAttr "<svg xmlns=\"http://www.w3.org/2000/svg\"></svg>".data = 0 →
          normalize_svg_content "<svg xmlns=\"http://www.w3.org/2000/svg\"></svg>".data
            = xmlDecl ++ replaceAll svgOpenTag svgOpenTagWithNs
                "<svg xmlns=\"http://www.w3.org/2000/svg\"></svg>".data)) :=
  ⟨by decide, C3_amended _ (by decide)⟩

/-! ## C4 — structural-validation gate (≥ 5 direct children) -/

/-- Claim C4.  For every extraction attempt that reaches the structural
validation gate (browser launched, page loaded, runtime available, output
element present, structural query answered): fewer than 5 direct children is
always classified as the insufficient-content failure (`"Invalid SVG
content"`, success = false) and serialization is never reached; 5 or more
direct children always passes this gate (the attempt proceeds to
serialization and its outcome is never the insufficient-content failure). -/
theorem C4_structural_gate (name : String) (env : PageEnv) (info : SvgInfo)
    (hl : env.launchOk = true) (hg : env.gotoOk = true)
    (hd : env.d3First = true ∨ env.d3Second = true)
    (hs : env.selectorOk = true) (hi : env.svgInfo = some info) :
    (info.children < 5 →
      (extract_svg name env).1 = (false, "Invalid SVG content")
      ∧ ExtractEvent.svgSerialized ∉ (extract_svg name env).2)
    ∧ (5 ≤ info.children →
      (extract_svg name env).1 ≠ (false, "Invalid SVG content")
      ∧ ExtractEvent.svgSerialized ∈ (extract_svg name env).2) := by
  obtain ⟨l, g, d1, d2, sel, si, sc, m⟩ := env
  simp only at hl hg hs hi
  subst hl hg hs hi
  constructor
  · intro hlt
    cases d1 <;> cases d2 <;> simp_all [extract_svg]
  · intro hge
    have hnlt : ¬ info.children < 5 := Nat.not_lt.mpr hge
    rcases sc with _ | c
    · cases d1 <;> cases d2 <;> (simp [extract_svg, hnlt]; try simp_all)
    · rcases eq_or_ne c "" with hc | hc <;>
        cases d1 <;> cases d2 <;> simp [extract_svg, hnlt, hc] <;> simp_all

/-- Witness for `C4_structural_gate`, exercising the boundary: exactly 4
children is rejected, exactly 5 children passes this gate. -/
theorem C4_structural_gate_witness :
    ((4 < 5 →
      (extract_svg "variant_1" ⟨true, true, true, true, true, some ⟨4, 2⟩, some "<svg/>", ""⟩).1
          = (false, "Invalid SVG content")
      ∧ ExtractEvent.svgSerialized ∉
          (extract_svg "variant_1" ⟨true, true, true, true, true, some ⟨4, 2⟩, some "<svg/>", ""⟩).2)
    ∧ (5 ≤ (4 : Nat) →
      (extract_svg "variant_1" ⟨true, true, true, true, true, some ⟨4, 2⟩, some "<svg/>", ""⟩).1
          ≠ (false, "Invalid SVG content")
      ∧ ExtractEvent.svgSerialized ∈
          (extract_svg "variant_1" ⟨true, true, true, true, true, some ⟨4, 2⟩, some "<svg/>", ""⟩).2))
    ∧ ((5 < 5 →
      (extract_svg "variant_1" ⟨true, true, true, true, true, some ⟨5, 2⟩, some "<svg/>", ""⟩).1
          = (false, "Invalid SVG content")
      ∧ ExtractEvent.svgSerialized ∉
          (extract_svg "variant_1" ⟨true, true, true, true, true, some ⟨5, 2⟩, some "<svg/>", ""⟩).2)
    ∧ (5 ≤ (5 : Nat) →
      (extract_svg "variant_1" ⟨true, true, true, true, true, some ⟨5, 2⟩, some "<svg/>", ""⟩).1
          ≠ (false, "Invalid SVG content")
      ∧ ExtractEvent.svgSerialized ∈
          (extract_svg "variant_1" ⟨true, true, true, true, true, some ⟨5, 2⟩, some "<svg/>", ""⟩).2)) :=
  ⟨C4_structural_gate "variant_1" ⟨true, true, true, true, true, some ⟨4, 2⟩, some "<svg/>", ""⟩
      ⟨4, 2⟩ rfl rfl (Or.inl rfl) rfl rfl,
   C4_structural_gate "variant_1" ⟨true, true, true, true, true, some ⟨5, 2⟩, some "<svg/>", ""⟩
      ⟨5, 2⟩ rfl rfl (Or.inl rfl) rfl rfl⟩

/-! ## C9 — two-strike runtime-availability gate -/

/-- Claim C9.  For every extraction attempt whose browser launch and page load
succeed, the runtime-availability check (`typeof d3 !== 'undefined'`) runs
exactly once (after the fixed 3000 ms settle wait) when the first check
succeeds, and exactly twice (one re-check after the longer 5000 ms wait)
otherwise — never any further polling; and when both checks fail the attempt
is classified `"D3.js failed to load"` with none of the later gates
(output-element wait, structural query, serialization) ever reached. -/
theorem C9_runtime_two_strike (name : String) (env : PageEnv)
    (hl : env.launchOk = true) (hg : env.gotoOk = true) :
    ((extract_svg name env).2.count ExtractEvent.d3Checked
        = if env.d3First then 1 else 2)
    ∧ (env.d3First = false → env.d3Second = false →
        (extract_svg name env).1 = (false, "D3.js failed to load")
        ∧ ExtractEvent.waitedForSelector ∉ (extract_svg name env).2
        ∧ ExtractEvent.svgInfoQueried ∉ (extract_svg name env).2
        ∧ ExtractEvent.svgSerialized ∉ (extract_svg name env).2) := by
  obtain ⟨l, g, d1, d2, sel, si, sc, m⟩ := env
  simp only at hl hg
  subst hl hg
  constructor
  · rcases si with _ | ⟨ch, te⟩ <;> rcases sc with _ | c <;>
      cases d1 <;> cases d2 <;> cases sel <;>
      simp [extract_svg] <;>
      (try split) <;> (try split) <;>
      first
      | decide
      | simp
  · intro h1 h2
    subst h1 h2
    simp [extract_svg]

/-- Witness for `C9_runtime_two_strike`: runtime absent at both checks. -/
theorem C9_runtime_two_strike_witness :
    (((extract_svg "variant_1" ⟨true, true, false, false, true, none, none, "x"⟩).2.count
          ExtractEvent.d3Checked
        = if (⟨true, true, false, false, true, none, none, "x"⟩ : PageEnv).d3First then 1 else 2)
    ∧ (false = false → false = false →
        (extract_svg "variant_1" ⟨true, true, false, false, true, none, none, "x"⟩).1
            = (false, "D3.js failed to load")
        ∧ ExtractEvent.waitedForSelector ∉
            (extract_svg "variant_1" ⟨true, true, false, false, true, none, none, "x"⟩).2
        ∧ ExtractEvent.svgInfoQueried ∉
            (extract_svg "variant_1" ⟨true, true, false, false, true, none, none, "x"⟩).2
        ∧ ExtractEvent.svgSerialized ∉
            (extract_svg "variant_1" ⟨true, true, false, false, true, none, none, "x"⟩).2)) :=
  C9_runtime_two_strike "variant_1" ⟨true, true, false, false, true, none, none, "x"⟩ rfl rfl

/-! ## C6 — staggered extraction start times -/

/-- Consecutive start times produced by the extraction loop are separated by
at least the stagger interval, whatever the extraction durations are. -/
theorem startTimesAux_chain (ds : List Nat) :
    ∀ clock i, List.Chain' (fun a b => a + staggerSec ≤ b) (startTimesAux clock i ds) := by
  induction ds with
  | nil => intro clock i; simp [startTimesAux]
  | cons d ds ih =>
    intro clock i
    rw [startTimesAux, List.chain'_cons']
    refine ⟨?_, ih _ _⟩
    intro y hy
    cases ds with
    | nil => simp [startTimesAux] at hy
    | cons d' ds' =>
      rw [startTimesAux] at hy
      simp only [List.head?_cons, Option.mem_some_iff] at hy
      subst hy
      simp [staggerSec]
      omega

/-- Claim C6, counterexample.  The claim says each slot's extraction start is
delayed by `slot_index × stagger` *relative to batch start*.  The sleeps
happen inside a sequential loop, so they accumulate: even with instantaneous
extractions the third slot starts at 0 + 3 + 6 = 9 s, not at 2 × 3 = 6 s. -/
theorem C6_counterexample :
    extractionStartTimes [0, 0, 0] = [0, 3, 9]
    ∧ (extractionStartTimes [0, 0, 0]).getD 2 0 ≠ staggerSec * 2 := by
  constructor
  · decide
  · decide

/-- Claim C6, amended.  Each slot's extraction is preceded by an in-loop sleep
of `slot_index × stagger` seconds, which accumulates on top of the previous
slots' sleeps and extraction durations; consequently the sequence of
extraction start times is monotonically non-decreasing and consecutive start
times differ by at least the stagger interval (but the offset from batch
start is at least — not exactly — `slot_index × stagger`). -/
theorem C6_amended (durations : List Nat) :
    List.Chain' (fun a b => a ≤ b) (extractionStartTimes durations)
    ∧ List.Chain' (fun a b => a + staggerSec ≤ b) (extractionStartTimes durations) := by
  refine ⟨?_, startTimesAux_chain durations 0 0⟩
  exact (startTimesAux_chain durations 0 0).imp (fun h => by omega)

/-! ## C8 — hard 120 s timeout on each extraction attempt -/

/-- Claim C8.  Every extraction attempt runs under `subprocess.run`'s hard
120-second timeout: a child that would run longer is classified as the
timeout-tagged per-slot failure `(False, "Extraction timeout (120s)")` —
an ordinary failure value, not an escaping exception — and the sequential
scheduler still produces one outcome entry for every remaining document, so
sibling slots keep running after a timeout. -/
theorem C8_timeout (d : Nat) (rc : Int) (out : List String) (err : String)
    (env : Nat → SlotExtraction) (results : List (Option GenDoc))
    (h : extractionTimeoutSec < d) :
    extract_svg_subprocess (.runs d rc out err) = (false, "Extraction timeout (120s)")
    ∧ (extract_svgs_sequential env results).length = (results.filterMap id).length := by
  constructor
  · simp [extract_svg_subprocess, subprocessRun, h]
  · induction results with
    | nil => rfl
    | cons r rest ih => cases r <;> simp [extract_svgs_sequential, ih]

/-- Witness for `C8_timeout`: a 121-second child against the 120 s limit. -/
theorem C8_timeout_witness :
    extractionTimeoutSec < 121
    ∧ (extract_svg_subprocess (.runs 121 0 [] "") = (false, "Extraction timeout (120s)")
      ∧ (extract_svgs_sequential
            (fun _ => ⟨.runs 121 0 [] "", ""⟩)
            [some ⟨1, "generated/b/variant_1/infographic.html", "generated/b/variant_1"⟩,
             some ⟨2, "generated/b/variant_2/infographic.html", "generated/b/variant_2"⟩]).length
          = ([some (⟨1, "generated/b/variant_1/infographic.html", "generated/b/variant_1"⟩ : GenDoc),
              some ⟨2, "generated/b/variant_2/infographic.html", "generated/b/variant_2"⟩].filterMap id).length) :=
  ⟨by decide,
   C8_timeout 121 0 [] ""
     (fun _ => ⟨.runs 121 0 [] "", ""⟩)
     [some ⟨1, "generated/b/variant_1/infographic.html", "generated/b/variant_1"⟩,
      some ⟨2, "generated/b/variant_2/infographic.html", "generated/b/variant_2"⟩]
     (by decide)⟩

/-! ## C10 — empty element listing falls back to the placeholder -/

/-- Claim C10.  In the API generation path, when the element-listing call
returns an empty (falsy) result, the slot is not marked failed: generation
proceeds with the placeholder elements description `"basic elements"`, and
the slot's generation fails (returns `none`) exactly when the subsequent
code-generation call raises an exception or returns an empty result. -/
theorem C10_placeholder_elements (topic base_output_dir : String) (variant_id : Nat)
    (elemsOracle : ElementsOracle) (codeOracle : CodeOracle)
    (h : elemsOracle topic variant_id = .ok "") :
    generate_single_variant_api topic variant_id base_output_dir elemsOracle codeOracle
      = match codeOracle topic variant_id "basic elements" with
        | .error _ => none
        | .ok d3_code =>
          if d3_code = "" then none
          else some { variant_id := variant_id + 1,
                      html := base_output_dir ++ "/variant_" ++ toString (variant_id + 1)
                        ++ "/infographic.html",
                      directory := base_output_dir ++ "/variant_" ++ toString (variant_id + 1) } := by
  simp [generate_single_variant_api, h]

/-- Witness for `C10_placeholder_elements`: empty element listing, non-empty
code generation — the slot succeeds. -/
theorem C10_placeholder_elements_witness :
    (fun (_ : String) (_ : Nat) => (Except.ok "" : Except String String)) "t" 0 = .ok ""
    ∧ generate_single_variant_api "t" 0 "generated/b"
        (fun _ _ => .ok "") (fun _ _ _ => .ok "<html></html>")
      = match (fun (_ : String) (_ : Nat) (_ : String) =>
            (Except.ok "<html></html>" : Except String String)) "t" 0 "basic elements" with
        | .error _ => none
        | .ok d3_code =>
          if d3_code = "" then none
          else some { variant_id := 1,
                      html := "generated/b" ++ "/variant_" ++ toString 1 ++ "/infographic.html",
                      directory := "generated/b" ++ "/variant_" ++ toString 1 } :=
  ⟨rfl,
   C10_placeholder_elements "t" "generated/b" 0
     (fun _ _ => .ok "") (fun _ _ _ => .ok "<html></html>") rfl⟩

/-! ## Orchestrator-level lemmas -/

theorem extract_svgs_sequential_length (env : Nat → SlotExtraction) (l : List GenDoc) :
    (extract_svgs_sequential env (l.map some)).length = l.length := by
  induction l with
  | nil => rfl
  | cons r rest ih => simp [extract_svgs_sequential, ih]

theorem mk_pyStrip_ne_empty {prompt : String} (h : pyStrip prompt.data ≠ []) :
    String.mk (pyStrip prompt.data) ≠ "" := by
  intro hh
  exact h (congrArg String.data hh)

/-! ## C7 — synchronous input validation before any scheduling -/

/-- Claim C7.  A prompt that is empty after trimming is rejected synchronously
with the 400 validation error and an empty side-effect trace (no batch
directory created, nothing scheduled); a prompt that is non-empty after
trimming passes validation (the 400 error is never the outcome) and the
batch directory is created. -/
theorem C7_validation (prompt batchName : String) (order : List Nat)
    (eo : ElementsOracle) (co : CodeOracle) (env : Nat → SlotExtraction) :
    (pyStrip prompt.data = [] →
      generate_infographics prompt batchName order eo co env
        = (.error ⟨400, "Prompt cannot be empty"⟩, []))
    ∧ (pyStrip prompt.data ≠ [] →
      (generate_infographics prompt batchName order eo co env).1
          ≠ .error ⟨400, "Prompt cannot be empty"⟩
      ∧ OrchEvent.batchDirCreated ∈ (generate_infographics prompt batchName order eo co env).2) := by
  constructor
  · intro h
    simp [generate_infographics, h]
  · intro h
    have htopic := mk_pyStrip_ne_empty h
    simp only [generate_infographics, htopic, if_false, if_neg htopic]
    constructor
    · split
      · simp
      · split <;> simp
    · split
      · simp
      · split <;> simp

/-- Witness for `C7_validation` at a whitespace-only prompt and at a
non-empty prompt. -/
theorem C7_validation_witness :
    (pyStrip "   ".data = []
      ∧ generate_infographics "   " "b" [0, 1, 2]
          (fun _ _ => .ok "elems") (fun _ _ _ => .ok "<html>")
          (fun _ => ⟨.runs 1 0 [] "", ""⟩)
        = (.error ⟨400, "Prompt cannot be empty"⟩, []))
    ∧ (pyStrip "coffee brewing".data ≠ []
      ∧ ((generate_infographics "coffee brewing" "b" [0, 1, 2]
            (fun _ _ => .ok "elems") (fun _ _ _ => .ok "<html>")
            (fun _ => ⟨.runs 1 0 [] "", ""⟩)).1
          ≠ .error ⟨400, "Prompt cannot be empty"⟩
        ∧ OrchEvent.batchDirCreated ∈ (generate_infographics "coffee brewing" "b" [0, 1, 2]
            (fun _ _ => .ok "elems") (fun _ _ _ => .ok "<html>")
            (fun _ => ⟨.runs 1 0 [] "", ""⟩)).2)) :=
  ⟨⟨by decide,
    (C7_validation "   " "b" [0, 1, 2] (fun _ _ => .ok "elems") (fun _ _ _ => .ok "<html>")
      (fun _ => ⟨.runs 1 0 [] "", ""⟩)).1 (by decide)⟩,
   ⟨by decide,
    (C7_validation "coffee brewing" "b" [0, 1, 2] (fun _ _ => .ok "elems")
      (fun _ _ _ => .ok "<html>") (fun _ => ⟨.runs 1 0 [] "", ""⟩)).2 (by decide)⟩⟩

/-! ## C5 — zero generated documents short-circuits extraction -/

/-- Claim C5.  When the generation stage produces zero successful HTML
documents (and validation passed), the batch terminates with the batch-level
500 failure and the extraction stage is never invoked: no
`extractionLaunched` event ever appears in the trace. -/
theorem C5_short_circuit (prompt batchName : String) (order : List Nat)
    (eo : ElementsOracle) (co : CodeOracle) (env : Nat → SlotExtraction)
    (hv : pyStrip prompt.data ≠ [])
    (hgen : order.filterMap (fun i => generate_single_variant_api
        (String.mk (pyStrip prompt.data)) i ("generated/" ++ batchName) eo co) = []) :
    (generate_infographics prompt batchName order eo co env).1
        = .error ⟨500, "Failed to generate any HTML variants"⟩
    ∧ ∀ v, OrchEvent.extractionLaunched v
        ∉ (generate_infographics prompt batchName order eo co env).2 := by
  have htopic := mk_pyStrip_ne_empty hv
  simp [generate_infographics, htopic, hgen]

/-- Witness for `C5_short_circuit`: every slot's code generation returns an
empty response, so no document is generated. -/
theorem C5_short_circuit_witness :
    pyStrip "coffee brewing".data ≠ []
    ∧ [0, 1, 2].filterMap (fun i => generate_single_variant_api
        (String.mk (pyStrip "coffee brewing".data)) i ("generated/" ++ "b")
        (fun _ _ => .ok "elems") (fun _ _ _ => .ok "")) = []
    ∧ ((generate_infographics "coffee brewing" "b" [0, 1, 2]
          (fun _ _ => .ok "elems") (fun _ _ _ => .ok "")
          (fun _ => ⟨.runs 1 0 [] "", ""⟩)).1
        = .error ⟨500, "Failed to generate any HTML variants"⟩
      ∧ ∀ v, OrchEvent.extractionLaunched v
          ∉ (generate_infographics "coffee brewing" "b" [0, 1, 2]
              (fun _ _ => .ok "elems") (fun _ _ _ => .ok "")
              (fun _ => ⟨.runs 1 0 [] "", ""⟩)).2) :=
  ⟨by decide, by decide,
   C5_short_circuit "coffee brewing" "b" [0, 1, 2]
     (fun _ _ => .ok "elems") (fun _ _ _ => .ok "")
     (fun _ => ⟨.runs 1 0 [] "", ""⟩) (by decide) (by decide)⟩

/-! ## C2 — success policy and the all-extractions-fail case -/

set_option maxRecDepth 4000 in
/-- Claim C2, counterexample.  The claim says that when every extraction fails
a structured `BatchResult` with `success = false` is still returned, never a
bare exception.  In the source, `generate_infographics` raises
`HTTPException(500, "Failed to extract any SVGs")` in that case: with all
three generations succeeding and every extraction subprocess failing, the
invocation's outcome is the raised error, and no `InfographicResponse` (with
any `success` value) is returned. -/
theorem C2_counterexample :
    (generate_infographics "coffee brewing" "b" [0, 1, 2]
        (fun _ _ => .ok "elems") (fun _ _ _ => .ok "<html>")
        (fun _ => ⟨.runs 1 1 [] "render crashed", ""⟩)).1
      = .error ⟨500, "Failed to extract any SVGs"⟩ := by
  decide

/-- Claim C2, amended.  For every batch invocation passing input validation:
any returned response has `success = true`; if at least one generated
document's extraction succeeds, the response is returned with
`success = true` (partial success included); and if every extraction fails,
the invocation raises the structured HTTP 500 error
`"Failed to extract any SVGs"` instead of returning a `BatchResult` with
`success = false`. -/
theorem C2_amended (prompt batchName : String) (order : List Nat)
    (eo : ElementsOracle) (co : CodeOracle) (env : Nat → SlotExtraction)
    (hv : pyStrip prompt.data ≠ []) :
    (∀ resp, (generate_infographics prompt batchName order eo co env).1 = .ok resp →
      resp.success = true)
    ∧ (order.filterMap (fun i => generate_single_variant_api
          (String.mk (pyStrip prompt.data)) i ("generated/" ++ batchName) eo co) ≠ [] →
      (∃ r ∈ extract_svgs_sequential env
          ((order.filterMap (fun i => generate_single_variant_api
            (String.mk (pyStrip prompt.data)) i ("generated/" ++ batchName) eo co)).map some),
        r.success = true) →
      ∃ resp, (generate_infographics prompt batchName order eo co env).1 = .ok resp
        ∧ resp.success = true)
    ∧ (order.filterMap (fun i => generate_single_variant_api
          (String.mk (pyStrip prompt.data)) i ("generated/" ++ batchName) eo co) ≠ [] →
      (∀ r ∈ extract_svgs_sequential env
          ((order.filterMap (fun i => generate_single_variant_api
            (String.mk (pyStrip prompt.data)) i ("generated/" ++ batchName) eo co)).map some),
        r.success = false) →
      (generate_infographics prompt batchName order eo co env).1
        = .error ⟨500, "Failed to extract any SVGs"⟩) := by
  have htopic := mk_pyStrip_ne_empty hv
  refine ⟨?_, ?_, ?_⟩
  · intro resp h
    simp only [generate_infographics, if_neg htopic] at h
    split at h
    · simp at h
    · split at h
      · simp at h
      · rw [Except.ok.injEq] at h
        subst h
        rfl
  · intro hne hex
    obtain ⟨r, hr, hsucc⟩ := hex
    have hfil : (extract_svgs_sequential env
        ((order.filterMap (fun i => generate_single_variant_api
          (String.mk (pyStrip prompt.data)) i ("generated/" ++ batchName) eo co)).map some)).filter
        (fun r => r.success) ≠ [] :=
      List.ne_nil_of_mem (List.mem_filter.mpr ⟨hr, by simp [hsucc]⟩)
    simp only [generate_infographics, if_neg htopic, if_neg hne, if_neg hfil]
    exact ⟨_, rfl, rfl⟩
  · intro hne hall
    have hfil : (extract_svgs_sequential env
        ((order.filterMap (fun i => generate_single_variant_api
          (String.mk (pyStrip prompt.data)) i ("generated/" ++ batchName) eo co)).map some)).filter
        (fun r => r.success) = [] := by
      rw [List.filter_eq_nil_iff]
      intro r hr
      simp [hall r hr]
    simp only [generate_infographics, if_neg htopic, if_neg hne, hfil]
    simp

set_option maxRecDepth 8000 in
/-- Witness for `C2_amended`: three generated documents, extraction fails
for the middle slot only — partial success, response returned with
`success = true`. -/
theorem C2_amended_witness :
    pyStrip "coffee brewing".data ≠ []
    ∧ ((∀ resp, (generate_infographics "coffee brewing" "b" [0, 1, 2]
          (fun _ _ => .ok "elems") (fun _ _ _ => .ok "<html>")
          (fun v => if v = 2 then ⟨.runs 1 1 [] "boom", ""⟩
                    else ⟨.runs 1 0 ["[EXTRACTOR] SUCCESS: Success: 900 bytes"] "", "<svg/>"⟩)).1
            = .ok resp → resp.success = true)
      ∧ ([0, 1, 2].filterMap (fun i => generate_single_variant_api
            (String.mk (pyStrip "coffee brewing".data)) i ("generated/" ++ "b")
            (fun _ _ => .ok "elems") (fun _ _ _ => .ok "<html>")) ≠ [] →
        (∃ r ∈ extract_svgs_sequential
            (fun v => if v = 2 then ⟨.runs 1 1 [] "boom", ""⟩
                      else ⟨.runs 1 0 ["[EXTRACTOR] SUCCESS: Success: 900 bytes"] "", "<svg/>"⟩)
            (([0, 1, 2].filterMap (fun i => generate_single_variant_api
              (String.mk (pyStrip "coffee brewing".data)) i ("generated/" ++ "b")
              (fun _ _ => .ok "elems") (fun _ _ _ => .ok "<html>"))).map some),
          r.success = true) →
        ∃ resp, (generate_infographics "coffee brewing" "b" [0, 1, 2]
            (fun _ _ => .ok "elems") (fun _ _ _ => .ok "<html>")
            (fun v => if v = 2 then ⟨.runs 1 1 [] "boom", ""⟩
                      else ⟨.runs 1 0 ["[EXTRACTOR] SUCCESS: Success: 900 bytes"] "", "<svg/>"⟩)).1
              = .ok resp ∧ resp.success = true)
      ∧ ([0, 1, 2].filterMap (fun i => generate_single_variant_api
            (String.mk (pyStrip "coffee brewing".data)) i ("generated/" ++ "b")
            (fun _ _ => .ok "elems") (fun _ _ _ => .ok "<html>")) ≠ [] →
        (∀ r ∈ extract_svgs_sequential
            (fun v => if v = 2 then ⟨.runs 1 1 [] "boom", ""⟩
                      else ⟨.runs 1 0 ["[EXTRACTOR] SUCCESS: Success: 900 bytes"] "", "<svg/>"⟩)
            (([0, 1, 2].filterMap (fun i => generate_single_variant_api
              (String.mk (pyStrip "coffee brewing".data)) i ("generated/" ++ "b")
              (fun _ _ => .ok "elems") (fun _ _ _ => .ok "<html>"))).map some),
          r.success = false) →
        (generate_infographics "coffee brewing" "b" [0, 1, 2]
            (fun _ _ => .ok "elems") (fun _ _ _ => .ok "<html>")
            (fun v => if v = 2 then ⟨.runs 1 1 [] "boom", ""⟩
                      else ⟨.runs 1 0 ["[EXTRACTOR] SUCCESS: Success: 900 bytes"] "", "<svg/>"⟩)).1
          = .error ⟨500, "Failed to extract any SVGs"⟩)) :=
  ⟨by decide,
   C2_amended "coffee brewing" "b" [0, 1, 2]
     (fun _ _ => .ok "elems") (fun _ _ _ => .ok "<html>")
     (fun v => if v = 2 then ⟨.runs 1 1 [] "boom", ""⟩
               else ⟨.runs 1 0 ["[EXTRACTOR] SUCCESS: Success: 900 bytes"] "", "<svg/>"⟩)
     (by decide)⟩

/-! ## C1 — size of the returned variants list -/

set_option maxRecDepth 8000 in
/-- Claim C1, counterexample.  The claim says the returned variants list has
exactly V = 3 entries, one per slot, including slots whose HTML generation
failed.  In the source, slots whose generation fails are dropped before
extraction and never re-appear: with slot 1's code generation returning an
empty response (and both extractions succeeding), the response carries 2
variant entries, not 3. -/
theorem C1_counterexample :
    ((generate_infographics "coffee brewing" "b" [0, 1, 2]
        (fun _ _ => .ok "elems")
        (fun _ i _ => if i = 1 then .ok "" else .ok "<html>")
        (fun _ => ⟨.runs 1 0 ["[EXTRACTOR] SUCCESS: Success: 900 bytes"] "", "<svg/>"⟩)).1.map
      (fun resp => resp.variants.length)) = .ok 2
    ∧ ((generate_infographics "coffee brewing" "b" [0, 1, 2]
        (fun _ _ => .ok "elems")
        (fun _ i _ => if i = 1 then .ok "" else .ok "<html>")
        (fun _ => ⟨.runs 1 0 ["[EXTRACTOR] SUCCESS: Success: 900 bytes"] "", "<svg/>"⟩)).1.map
      (fun resp => resp.variants.length)) ≠ .ok 3 := by
  constructor
  · decide
  · decide

/-- Claim C1, amended.  Whenever the batch invocation returns a response, its
variants list has exactly one entry per slot whose HTML generation
succeeded — each entry marked success or failure of its extraction — and
slots whose HTML generation failed are omitted, so the list length equals
the number of generation successes (at most V), not V. -/
theorem C1_amended (prompt batchName : String) (order : List Nat)
    (eo : ElementsOracle) (co : CodeOracle) (env : Nat → SlotExtraction) :
    ((generate_infographics prompt batchName order eo co env).1.map
        (fun resp => resp.variants.length))
      = ((generate_infographics prompt batchName order eo co env).1.map
        (fun _ => (order.filterMap (fun i => generate_single_variant_api
            (String.mk (pyStrip prompt.data)) i ("generated/" ++ batchName) eo co)).length)) := by
  simp only [generate_infographics]
  split
  · rfl
  · split
    · rfl
    · split
      · rfl
      · simp only [Except.map]
        rw [extract_svgs_sequential_length]
